import Mathlib

set_option maxHeartbeats 1000000
set_option linter.unusedVariables false

/-!
Shallow embedding of the p11ne smoke-test script `tests/testtool`.

The script drives a differential conformance test between a PKCS#11-backed
cryptographic provider (the subject, reached through the openssl pkcs11
engine) and plain local openssl (the reference).  Payload bytes are modelled
as `List Nat`, external command outcomes as `Bool` or abstract functions, and
the shell `&&` chain of `testtemplate_generate_check` as a list of step
results evaluated left to right with short-circuiting.
-/

namespace Testtool

/-- Exit code for invalid parameters, line 40 of the script. -/
def EXIT_CODE_INVALID_PARAMS : Nat := 1

/-- Exit code for failed tests, line 41 of the script. -/
def EXIT_CODE_FAILED_TESTS : Nat := 2

/-- Modelled from the spec: the `testhelpers bitflip` binary (invoked by the
shell function `bitflip`, line 90) is a prebuilt helper whose source is not in
the repository sources.  The spec says the corruption oracle copies the file
and flips exactly the one bit at the chosen index.  Bit `bit` lives in byte
`bit / 8` at intra-byte position `bit % 8`; flipping is xor with the
corresponding power of two. -/
def bitflipBytes (bs : List Nat) (bit : Nat) : List Nat :=
  bs.set (bit / 8) ((bs.getD (bit / 8) 0) ^^^ 2 ^ (bit % 8))

/-- Bit `i` of a byte string: bit `i % 8` of byte `i / 8` (0 when out of range). -/
def byteTestBit (bs : List Nat) (i : Nat) : Bool :=
  Nat.testBit (bs.getD (i / 8) 0) (i % 8)

/-- Number of bit positions below `n` at which the two byte strings differ. -/
def diffBitCount (as bs : List Nat) (n : Nat) : Nat :=
  ((List.range n).filter (fun i => byteTestBit as i != byteTestBit bs i)).length

theorem length_bitflipBytes (bs : List Nat) (bit : Nat) :
    (bitflipBytes bs bit).length = bs.length := by
  simp [bitflipBytes]

theorem byteTestBit_bitflipBytes (bs : List Nat) (bit i : Nat)
    (hbit : bit < 8 * bs.length) :
    byteTestBit (bitflipBytes bs bit) i =
      if i = bit then !(byteTestBit bs i) else byteTestBit bs i := by
  have hlt : bit / 8 < bs.length := Nat.div_lt_of_lt_mul (by omega)
  by_cases hdiv : i / 8 = bit / 8
  · have hset : (bitflipBytes bs bit).getD (i / 8) 0 =
        (bs.getD (bit / 8) 0) ^^^ 2 ^ (bit % 8) := by
      rw [bitflipBytes, hdiv, List.getD_eq_getElem?_getD, List.getElem?_set_self hlt]
      rfl
    by_cases hi : i = bit
    · subst hi
      rw [if_pos rfl, byteTestBit, byteTestBit, hset, hdiv]
      simp [Nat.testBit_xor, Nat.testBit_two_pow]
    · have hmod : ¬ (bit % 8 = i % 8) := by
        intro hm
        exact hi (by omega)
      rw [if_neg hi, byteTestBit, byteTestBit, hset, hdiv]
      simp [Nat.testBit_xor, Nat.testBit_two_pow, hmod]
  · have hi : ¬ (i = bit) := fun h => hdiv (by rw [h])
    rw [if_neg hi, byteTestBit, byteTestBit, bitflipBytes,
      List.getD_eq_getElem?_getD, List.getElem?_set_ne (fun h => hdiv h.symm),
      List.getD_eq_getElem?_getD]

theorem bitflipBytes_ne (bs : List Nat) (bit : Nat) (hbit : bit < 8 * bs.length) :
    bitflipBytes bs bit ≠ bs := by
  intro h
  have h2 := congrArg (fun l => byteTestBit l bit) h
  simp only [byteTestBit_bitflipBytes bs bit bit hbit, if_pos rfl] at h2
  exact Bool.not_ne_self _ h2

theorem filter_range_singleton (p : Nat → Bool) (bit n : Nat) (hbit : bit < n)
    (hp : ∀ i, p i = decide (i = bit)) :
    (List.range n).filter p = [bit] := by
  induction n with
  | zero => omega
  | succ n ih =>
    rw [List.range_succ, List.filter_append]
    by_cases hb : bit = n
    · subst hb
      have hnil : (List.range bit).filter p = [] := by
        apply List.filter_eq_nil_iff.mpr
        intro a ha
        have hab : a < bit := List.mem_range.mp ha
        simp only [hp a, decide_eq_true_eq]
        omega
      rw [hnil, List.nil_append, List.filter_cons, List.filter_nil, hp bit]
      simp
    · have hlt : bit < n := by omega
      rw [ih hlt, List.filter_cons, List.filter_nil, hp n]
      have hnb : ¬ (n = bit) := fun h => hb h.symm
      simp [hnb]

theorem diffBitCount_bitflipBytes (bs : List Nat) (bit : Nat)
    (hbit : bit < 8 * bs.length) :
    diffBitCount bs (bitflipBytes bs bit) (8 * bs.length) = 1 := by
  unfold diffBitCount
  rw [filter_range_singleton _ bit _ hbit]
  · rfl
  · intro i
    rw [byteTestBit_bitflipBytes bs bit i hbit]
    by_cases hi : i = bit
    · subst hi
      simp only [if_pos rfl, decide_eq_true_eq]
      cases byteTestBit bs i <;> simp
    · simp [hi]

/-- Outcomes of the external commands one run of `testtemplate_generate_check`
depends on: the pseudo-random input file (content plus success of the helper
invocation), the bit index chosen by `prng_int`, the success of the copy and
helper steps inside `bitflip`, and the artifacts and exit statuses of the two
generating operations.  The checker and comparator operations are passed to
the template separately, mirroring the function names the script passes. -/
structure TestEnv where
  prngOk : Bool
  input : List Nat
  corruptBit : Nat
  bitflipCmdOk : Bool
  genPkcsOk : Bool
  pkcsOut : List Nat
  genRefOk : Bool
  refOut : List Nat

/-- The `&&` chain inside the braces of `testtemplate_generate_check`
(lines 606 to 643), one entry per command that can fail, in source order:
input generation; for positive sizes the `bitflip` call and the
`(! diff input input_corrupted)` assertion (an `if` with no else branch
yields status 0, hence `true`, when the size is 0); the subject and reference
generating operations; the custom output comparator; the two cross checks on
the original input; and for positive sizes the two negated checks against the
corrupted input.  A checker takes the input file content and the artifact. -/
def templateSteps (checkPkcs checkRef customCheck : List Nat → List Nat → Bool)
    (env : TestEnv) (filesize : Nat) : List Bool :=
  [env.prngOk,
   if 0 < filesize then env.bitflipCmdOk else true,
   if 0 < filesize then bitflipBytes env.input env.corruptBit != env.input else true,
   env.genPkcsOk,
   env.genRefOk,
   customCheck env.pkcsOut env.refOut,
   checkRef env.input env.pkcsOut,
   checkPkcs env.input env.refOut,
   if 0 < filesize then !(checkRef (bitflipBytes env.input env.corruptBit) env.pkcsOut) else true,
   if 0 < filesize then !(checkPkcs (bitflipBytes env.input env.corruptBit) env.refOut) else true]

/-- A `&&` chain succeeds exactly when every step reports success. -/
def chainOk (steps : List Bool) : Bool :=
  steps.all (fun b => b)

/-- Number of commands of a `&&` chain that actually run: evaluation stops
right after the first failing command. -/
def executedCount : List Bool → Nat
  | [] => 0
  | b :: rest => if b then 1 + executedCount rest else 1

/-- The verdict of one template run: the exit status of the brace block. -/
def templatePasses (checkPkcs checkRef customCheck : List Nat → List Nat → Bool)
    (env : TestEnv) (filesize : Nat) : Bool :=
  chainOk (templateSteps checkPkcs checkRef customCheck env filesize)

/-- Exit code captured at line 644: 0 on success of the chain, nonzero
otherwise (the concrete nonzero value is the failing command's status; only
zero versus nonzero matters downstream). -/
def testtemplate_exitcode (checkPkcs checkRef customCheck : List Nat → List Nat → Bool)
    (env : TestEnv) (filesize : Nat) : Nat :=
  if templatePasses checkPkcs checkRef customCheck env filesize then 0 else 1

/-- Comparator used by the deterministic families (lines 650 to 657):
`diff` succeeds exactly when the two artifacts are byte-identical. -/
def check_outfiles_diff (pkcs_out ref_out : List Nat) : Bool :=
  pkcs_out == ref_out

/-- PSS comparator (lines 689 to 702): for salt length 0 the script runs
`diff "$pkcs_out" "$pkcs_out"`, comparing the subject artifact with itself;
for other salt lengths it only echoes a message (status 0). -/
def check_outfiles_signverify_rsapss (pkcs_out ref_out : List Nat) (saltlen : Nat) : Bool :=
  if saltlen == 0 then pkcs_out == pkcs_out else true

/-- Comparator of the ECDSA and RSA PKCS encrypt tests: the shell builtin
`true`, which always succeeds. -/
def check_outfiles_true (pkcs_out ref_out : List Nat) : Bool :=
  true

/-- The RSA PKCS1 v1.5 digest sign and verify test (lines 659 to 673):
instantiates the template with `check_outfiles_diff` as the comparator.  The
subject and reference verify operations are external engine calls, passed in
as functions of the input content and the artifact. -/
def test_openssl_digestsignverify_rsa (checkPkcs checkRef : List Nat → List Nat → Bool)
    (env : TestEnv) (filesize : Nat) : Bool :=
  templatePasses checkPkcs checkRef check_outfiles_diff env filesize

/-- The raw X509 RSA sign and verify test (lines 675 to 687): also uses the
byte equality comparator `check_outfiles_diff`. -/
def test_openssl_signverify_rsa_x509 (checkPkcs checkRef : List Nat → List Nat → Bool)
    (env : TestEnv) (filesize : Nat) : Bool :=
  templatePasses checkPkcs checkRef check_outfiles_diff env filesize

/-- The RSA PSS digest sign and verify test (lines 704 to 724).  The function
returns early, without running the template or logging any verdict (`none`),
exactly when the key label is the string rsa1024 and the salt length is 64;
otherwise it runs the template with the PSS comparator. -/
def test_openssl_digestsignverify_rsapss (checkPkcs checkRef : List Nat → List Nat → Bool)
    (env : TestEnv) (filesize : Nat) (keylabel : String) (saltlen : Nat)
    (digest : String) : Option Bool :=
  if keylabel == "rsa1024" && saltlen == 64 then
    none
  else
    some (templatePasses checkPkcs checkRef
      (fun a b => check_outfiles_signverify_rsapss a b saltlen) env filesize)

/-- Modelled from the spec: output length in bytes of each digest named in
TEST_DIGESTS (line 25); the digest algorithms themselves are external. -/
def digest_output_len (digest : String) : Nat :=
  if digest == "sha1" then 20
  else if digest == "sha224" then 28
  else if digest == "sha256" then 32
  else if digest == "sha384" then 48
  else if digest == "sha512" then 64
  else 0

/-- Modulus length in bytes of each key label in RSA_KEYS (line 36). -/
def modulus_bytes (keylabel : String) : Nat :=
  if keylabel == "rsa1024" then 128
  else if keylabel == "rsa2048" then 256
  else if keylabel == "rsa4096" then 512
  else 0

/-- Modelled from the spec: a PSS combination exceeds the usable capacity of
the modulus when the digest output length plus the salt length no longer fits
the encoded message, that is when digest length + salt length + 2 exceeds the
modulus byte length (the standard PSS encoding feasibility bound the spec
asks to compute from the key size and digest). -/
def pss_capacity_exceeded (keylabel digest : String) (saltlen : Nat) : Bool :=
  decide (digest_output_len digest + saltlen + 2 > modulus_bytes keylabel)

/-- The decrypt side of `openssl_pkcs_decrypt_rsa` (lines 463 to 477): decrypt
the ciphertext with the subject engine, then `diff` the plaintext against the
input file; the check succeeds only when decryption succeeds and its output
equals the input byte for byte.  `dec` is the external decrypt operation. -/
def openssl_pkcs_decrypt_rsa (dec : List Nat → Option (List Nat))
    (input enc : List Nat) : Bool :=
  match dec enc with
  | some out => out == input
  | none => false

/-- The reference decrypt check `openssl_ref_decrypt_rsa` (lines 492 to 505),
same shape with the local key. -/
def openssl_ref_decrypt_rsa (dec : List Nat → Option (List Nat))
    (input enc : List Nat) : Bool :=
  match dec enc with
  | some out => out == input
  | none => false

/-- The raw padding subject decrypt check `openssl_pkcs_decrypt_rsax509`
(lines 524 to 539): decrypt with padding mode none, then `diff` with input. -/
def openssl_pkcs_decrypt_rsax509 (dec : List Nat → Option (List Nat))
    (input enc : List Nat) : Bool :=
  match dec enc with
  | some out => out == input
  | none => false

/-- The raw padding reference decrypt check `openssl_ref_decrypt_rsax509`
(lines 555 to 569). -/
def openssl_ref_decrypt_rsax509 (dec : List Nat → Option (List Nat))
    (input enc : List Nat) : Bool :=
  match dec enc with
  | some out => out == input
  | none => false

/-- The RSA PKCS encrypt and decrypt test (lines 740 to 758): the checkers are
the decrypt and compare operations and the comparator is the builtin `true`.
`pkcsDec` and `refDec` are the external decrypt operations of the two
parties. -/
def test_openssl_encryptdecrypt_rsa (pkcsDec refDec : List Nat → Option (List Nat))
    (env : TestEnv) (filesize : Nat) : Bool :=
  templatePasses (openssl_pkcs_decrypt_rsa pkcsDec) (openssl_ref_decrypt_rsa refDec)
    check_outfiles_true env filesize

/-- The raw X509 RSA encrypt and decrypt test (lines 760 to 774): the checkers
are the raw decrypt and compare operations and the comparator is
`check_outfiles_diff`, so the two ciphertexts must be byte identical. -/
def test_openssl_encryptdecrypt_rsa_x509 (pkcsDec refDec : List Nat → Option (List Nat))
    (env : TestEnv) (filesize : Nat) : Bool :=
  templatePasses (openssl_pkcs_decrypt_rsax509 pkcsDec) (openssl_ref_decrypt_rsax509 refDec)
    check_outfiles_diff env filesize

/-- The two global result counters (lines 57 and 58), both 0 at start. -/
structure Ledger where
  num_tests_passed : Nat
  num_tests_failed : Nat

/-- The initial ledger of a run. -/
def Ledger.init : Ledger :=
  ⟨0, 0⟩

/-- `log_test_result` (lines 190 to 213): increments the pass counter when
the reported exit code is 0 and the fail counter otherwise; the rest of the
shell function only formats the output line. -/
def log_test_result (led : Ledger) (test_exitcode : Nat) : Ledger :=
  if test_exitcode == 0 then
    { led with num_tests_passed := led.num_tests_passed + 1 }
  else
    { led with num_tests_failed := led.num_tests_failed + 1 }

/-- `test_results_summary` (lines 215 to 217) prints exactly the two
counters, modelled as returning the pair it formats. -/
def test_results_summary (led : Ledger) : Nat × Nat :=
  (led.num_tests_passed, led.num_tests_failed)

/-- One full test case at the suite level: the template computes an exit code
and `log_test_result` records exactly one verdict for it (line 647); the
shell function then returns normally, so the suite moves to the next case. -/
def run_case (checkPkcs checkRef customCheck : List Nat → List Nat → Bool)
    (env : TestEnv) (filesize : Nat) (led : Ledger) : Ledger :=
  log_test_result led (testtemplate_exitcode checkPkcs checkRef customCheck env filesize)

/-- A suite as seen by the ledger: the sequence of per-case exit codes is
folded through `log_test_result`; a failing case contributes a verdict and
the fold continues with the remaining cases. -/
def run_suite (led : Ledger) (exitcodes : List Nat) : Ledger :=
  exitcodes.foldl log_test_result led

/-- Exit status of the brace block at lines 1048 to 1060: after the command
dispatch and summary, `exit EXIT_CODE_FAILED_TESTS` runs exactly when the
fail counter is nonzero, otherwise the block finishes with status 0. -/
def test_block_exit (led : Ledger) : Nat :=
  if led.num_tests_failed != 0 then EXIT_CODE_FAILED_TESTS else 0

/-- Bash status of a two-command pipeline without `pipefail`: the status of
the last command; the status of the left side is discarded. -/
def pipeline_exit (leftExit teeExit : Nat) : Nat :=
  teeExit

/-- Process exit status of `main` (lines 1032 to 1062).  Invalid parameters
(no arguments or an unknown command) reach `die`, which runs `exit 1` in the
main shell.  Otherwise the whole test run executes inside
`{ ... } | tee $OVERALL_LOG_FILE`: the brace block is the left element of a
pipeline and therefore runs in a subshell, so the `exit` inside it terminates
only that subshell, and the status of `main` is the status of the pipeline,
which is the status of `tee`. -/
def main_exit (validInvocation : Bool) (led : Ledger) (teeExit : Nat) : Nat :=
  if validInvocation then
    pipeline_exit (test_block_exit led) teeExit
  else
    EXIT_CODE_INVALID_PARAMS

/-- Modelled from the spec: the `testhelpers prng_file` binary is not in the
repository sources; the spec only requires pseudo-random content that is a
deterministic function of the seed.  A linear congruential generator stands
in for the helper: `prng_state seed i` is the state after `i` steps. -/
def prng_state (seed : Nat) : Nat → Nat
  | 0 => (seed * 1103515245 + 12345) % 2 ^ 31
  | i + 1 => (prng_state seed i * 1103515245 + 12345) % 2 ^ 31

/-- Modelled from the spec: `testhelpers prng_file out size seed` writes
`size` pseudo-random bytes, deterministic in the seed. -/
def prng_file (seed size : Nat) : List Nat :=
  (List.range size).map (fun i => prng_state seed i % 256)

/-- Modelled from the spec: `testhelpers prng_int seed start end` picks one
value in the half-open range, deterministic in the seed. -/
def prng_int (seed start stop : Nat) : Nat :=
  start + prng_state seed 0 % (stop - start)

/-- `create_test_random_file` (lines 61 to 67): the input file of a case is
the helper output for the requested size and the global seed. -/
def create_test_random_file (seed size : Nat) : List Nat :=
  prng_file seed size

/-- `create_test_random_file_rsax509` (lines 69 to 79): `size - 1` helper
bytes with the byte 0x41 (the character A) prepended, so the first bit of the
file is 0. -/
def create_test_random_file_rsax509 (seed size : Nat) : List Nat :=
  65 :: prng_file seed (size - 1)

/-- The bit index the corruption oracle uses for a case of the given size:
`bitflip` is always called with the range 0 to 8 times the file size
(line 614) and asks `prng_int` with the global seed (line 88). -/
def bitflip_choice (seed filesize : Nat) : Nat :=
  prng_int seed 0 (8 * filesize)

/-- Which of the two input generators a test case wires into the template. -/
inductive GenKind where
  | plain : GenKind
  | rsax509 : GenKind
deriving DecidableEq

/-- The size and generator a test case requests for its input file. -/
structure CaseSpec where
  gen : GenKind
  size : Nat

/-- The state `main` fixes for a whole run: `prng_seed=$RANDOM` is assigned
once at line 1049, before any test case runs, and no test code reassigns it. -/
structure TestRun where
  seed : Nat

/-- The input file a case receives in a given run: both generators pass the
one global seed to the helper. -/
def case_input (r : TestRun) (c : CaseSpec) : List Nat :=
  match c.gen with
  | GenKind.plain => create_test_random_file r.seed c.size
  | GenKind.rsax509 => create_test_random_file_rsax509 r.seed c.size

/-- The corruption bit a case receives in a given run. -/
def case_corrupt_bit (r : TestRun) (c : CaseSpec) : Nat :=
  bitflip_choice r.seed c.size

theorem chainOk_append_false (l1 l2 : List Bool) :
    chainOk (l1 ++ false :: l2) = false := by
  simp [chainOk]

theorem executedCount_append_false (l1 l2 : List Bool)
    (h : l1.all (fun b => b) = true) :
    executedCount (l1 ++ false :: l2) = l1.length + 1 := by
  induction l1 with
  | nil => simp [executedCount]
  | cons b rest ih =>
    simp only [List.all_cons, Bool.and_eq_true] at h
    have hb : b = true := h.1
    subst hb
    simp [List.cons_append, executedCount, ih h.2]
    omega

end Testtool

/-- C1: for every test case with payload size greater than 0 the template runs
the negative path, so the case passes only if the reference checker rejects
the subject artifact against the corrupted input and the subject checker
rejects the reference artifact against the corrupted input; for payload size
0 the corruption and negative path entries of the chain are skipped and the
verdict is exactly the conjunction of the remaining steps, none of which
consults the corrupted input. -/
theorem C1_negative_path_required
    (checkPkcs checkRef customCheck : List Nat → List Nat → Bool)
    (env : Testtool.TestEnv) (filesize : Nat) :
    (0 < filesize →
      Testtool.templatePasses checkPkcs checkRef customCheck env filesize = true →
      checkRef (Testtool.bitflipBytes env.input env.corruptBit) env.pkcsOut = false ∧
      checkPkcs (Testtool.bitflipBytes env.input env.corruptBit) env.refOut = false) ∧
    (Testtool.templatePasses checkPkcs checkRef customCheck env 0 =
      (env.prngOk && env.genPkcsOk && env.genRefOk && customCheck env.pkcsOut env.refOut &&
        checkRef env.input env.pkcsOut && checkPkcs env.input env.refOut)) := by
  constructor
  · intro hfs hpass
    simp only [Testtool.templatePasses, Testtool.templateSteps, Testtool.chainOk,
      List.all_cons, List.all_nil, if_pos hfs, Bool.and_eq_true, Bool.not_eq_true'] at hpass
    exact ⟨hpass.2.2.2.2.2.2.2.2.1, hpass.2.2.2.2.2.2.2.2.2.1⟩
  · cases hprng : env.prngOk <;>
      cases hgp : env.genPkcsOk <;>
      cases hgr : env.genRefOk <;>
      cases hcc : customCheck env.pkcsOut env.refOut <;>
      cases hcr : checkRef env.input env.pkcsOut <;>
      cases hcp : checkPkcs env.input env.refOut <;>
      simp [Testtool.templatePasses, Testtool.templateSteps, Testtool.chainOk,
        hprng, hgp, hgr, hcc, hcr, hcp]

/-- C1 witness: a concrete positive-size case that passes, from which the
theorem yields rejection of both artifacts against the corrupted input. -/
theorem C1_negative_path_required_witness :
    ((Testtool.bitflipBytes [1] 0 == [1]) = false ∧
      (Testtool.bitflipBytes [1] 0 == [1]) = false) :=
  (C1_negative_path_required (fun i a => i == [1]) (fun i a => i == [1])
    (fun a b => true) ⟨true, [1], 0, true, true, [2], true, [3]⟩ 1).1
    (by decide) (by decide)

/-- C2: the corruption oracle returns a copy that differs from the original
in exactly one bit and is never byte-equal to it, for any bit index chosen in
the range 0 to 8 times the size; and the template asserts the inequality
before the generating operations: if the corrupted copy equalled the
original, the chain would stop at the assertion (at most 3 of the 10 steps
execute, the generating operations never run) and the case would fail. -/
theorem C2_corrupt_differs_one_bit :
    (∀ (bs : List Nat) (bit : Nat), bit < 8 * bs.length →
      Testtool.bitflipBytes bs bit ≠ bs ∧
      Testtool.diffBitCount bs (Testtool.bitflipBytes bs bit) (8 * bs.length) = 1) ∧
    (∀ (checkPkcs checkRef customCheck : List Nat → List Nat → Bool)
      (env : Testtool.TestEnv) (filesize : Nat), 0 < filesize →
      Testtool.bitflipBytes env.input env.corruptBit = env.input →
      Testtool.executedCount
        (Testtool.templateSteps checkPkcs checkRef customCheck env filesize) ≤ 3 ∧
      Testtool.templatePasses checkPkcs checkRef customCheck env filesize = false) := by
  constructor
  · intro bs bit hbit
    exact ⟨Testtool.bitflipBytes_ne bs bit hbit,
      Testtool.diffBitCount_bitflipBytes bs bit hbit⟩
  · intro checkPkcs checkRef customCheck env filesize hfs heq
    have hbne : (Testtool.bitflipBytes env.input env.corruptBit != env.input) = false := by
      simp [heq]
    constructor
    · cases hprng : env.prngOk <;> cases hcmd : env.bitflipCmdOk <;>
        simp [Testtool.templateSteps, Testtool.executedCount, if_pos hfs, hbne, hprng, hcmd]
    · simp [Testtool.templatePasses, Testtool.templateSteps, Testtool.chainOk,
        if_pos hfs, hbne]

/-- C2 witness: the oracle at a one-byte payload with bit 0, and a degenerate
environment whose corrupted copy equals its input (empty content with
positive declared size), on which the chain stops early and fails. -/
theorem C2_corrupt_differs_one_bit_witness :
    (Testtool.bitflipBytes [0] 0 ≠ [0] ∧
      Testtool.diffBitCount [0] (Testtool.bitflipBytes [0] 0) (8 * [0].length) = 1) ∧
    (Testtool.executedCount
        (Testtool.templateSteps (fun a b => true) (fun a b => true) (fun a b => true)
          ⟨true, [], 0, true, true, [], true, []⟩ 1) ≤ 3 ∧
      Testtool.templatePasses (fun a b => true) (fun a b => true) (fun a b => true)
        ⟨true, [], 0, true, true, [], true, []⟩ 1 = false) :=
  ⟨C2_corrupt_differs_one_bit.1 [0] 0 (by decide),
    C2_corrupt_differs_one_bit.2 (fun a b => true) (fun a b => true) (fun a b => true)
      ⟨true, [], 0, true, true, [], true, []⟩ 1 (by decide) (by decide)⟩

/-- C3: the claim states the process exits with EXIT_CODE_FAILED_TESTS, and
in particular nonzero, when at least one case failed.  The script does run
`exit $EXIT_CODE_FAILED_TESTS` when the fail counter is nonzero, but that
command executes inside the left element of the `{ ... } | tee` pipeline,
which is a subshell, so the status of `main` is the status of `tee`: with a
valid invocation, one failed test and `tee` succeeding, the process exit
status is 0, not 2.  The invalid-parameter path, which calls `die` in the
main shell, does exit 1 as claimed. -/
theorem C3_exit_status_swallowed_by_pipeline :
    Testtool.main_exit true ⟨5, 1⟩ 0 = 0 ∧
    Testtool.test_block_exit ⟨5, 1⟩ = Testtool.EXIT_CODE_FAILED_TESTS ∧
    Testtool.EXIT_CODE_FAILED_TESTS = 2 ∧
    Testtool.main_exit false ⟨0, 0⟩ 0 = Testtool.EXIT_CODE_INVALID_PARAMS ∧
    Testtool.main_exit true ⟨5, 0⟩ 0 = 0 :=
  ⟨rfl, rfl, rfl, rfl, rfl⟩

/-- C4: the RSA PKCS1 v1.5 digest sign test and the raw X509 RSA sign test
both instantiate the template with the byte for byte comparator
`check_outfiles_diff`, so such a case passes only if the subject and
reference artifacts are byte-identical. -/
theorem C4_deterministic_families_byte_identical
    (checkPkcs checkRef : List Nat → List Nat → Bool)
    (env : Testtool.TestEnv) (filesize : Nat) :
    (Testtool.test_openssl_digestsignverify_rsa checkPkcs checkRef env filesize = true →
      env.pkcsOut = env.refOut) ∧
    (Testtool.test_openssl_signverify_rsa_x509 checkPkcs checkRef env filesize = true →
      env.pkcsOut = env.refOut) := by
  have key : Testtool.templatePasses checkPkcs checkRef Testtool.check_outfiles_diff
      env filesize = true → env.pkcsOut = env.refOut := by
    intro hpass
    simp only [Testtool.templatePasses, Testtool.templateSteps, Testtool.chainOk,
      List.all_cons, List.all_nil, Bool.and_eq_true] at hpass
    have hcc := hpass.2.2.2.2.2.1
    simpa [Testtool.check_outfiles_diff] using hcc
  exact ⟨key, key⟩

/-- C4 witness: a concrete passing case of each deterministic family, from
which the theorem yields byte equality of the two artifacts. -/
theorem C4_deterministic_families_byte_identical_witness :
    ((⟨true, [1], 0, true, true, [7, 8], true, [7, 8]⟩ : Testtool.TestEnv).pkcsOut =
      (⟨true, [1], 0, true, true, [7, 8], true, [7, 8]⟩ : Testtool.TestEnv).refOut) :=
  (C4_deterministic_families_byte_identical (fun i a => i == [1]) (fun i a => i == [1])
    ⟨true, [1], 0, true, true, [7, 8], true, [7, 8]⟩ 1).1 (by decide)

/-- C5 counterexample: the claim says that for every encrypt and decrypt test
case byte equality of the two ciphertexts is not required.  In the raw X509
encrypt and decrypt family the comparator is `check_outfiles_diff`: here is a
case in which both decrypt checks reproduce the input from the counter-party
ciphertext, every other step succeeds, yet the case fails because the two
ciphertexts differ; the same environment passes the PKCS family, whose
comparator is the builtin `true`. -/
theorem C5_x509_requires_byte_equality :
    Testtool.test_openssl_encryptdecrypt_rsa_x509
      (fun c => if c == [9] then some [1, 2, 3, 4] else none)
      (fun c => if c == [7] then some [1, 2, 3, 4] else none)
      ⟨true, [1, 2, 3, 4], 0, true, true, [7], true, [9]⟩ 4 = false ∧
    Testtool.openssl_pkcs_decrypt_rsax509
      (fun c => if c == [9] then some [1, 2, 3, 4] else none) [1, 2, 3, 4] [9] = true ∧
    Testtool.openssl_ref_decrypt_rsax509
      (fun c => if c == [7] then some [1, 2, 3, 4] else none) [1, 2, 3, 4] [7] = true ∧
    Testtool.test_openssl_encryptdecrypt_rsa
      (fun c => if c == [9] then some [1, 2, 3, 4] else none)
      (fun c => if c == [7] then some [1, 2, 3, 4] else none)
      ⟨true, [1, 2, 3, 4], 0, true, true, [7], true, [9]⟩ 4 = true := by
  refine ⟨by decide, by decide, by decide, by decide⟩

/-- C5 amended: every encrypt and decrypt case passes only if each party's
decrypt operation applied to the counter-party ciphertext returns exactly the
original input (this is the source's decrypt-then-diff checker); ciphertext
byte equality is not required in the PKCS family, whose comparator is the
builtin `true` (witnessed by a passing case with differing ciphertexts), but
it is additionally required in the raw X509 family, whose comparator is
`check_outfiles_diff`. -/
theorem C5_roundtrip_amended (pkcsDec refDec : List Nat → Option (List Nat))
    (env : Testtool.TestEnv) (filesize : Nat) :
    (Testtool.test_openssl_encryptdecrypt_rsa pkcsDec refDec env filesize = true →
      pkcsDec env.refOut = some env.input ∧ refDec env.pkcsOut = some env.input) ∧
    (Testtool.test_openssl_encryptdecrypt_rsa_x509 pkcsDec refDec env filesize = true →
      env.pkcsOut = env.refOut ∧
      pkcsDec env.refOut = some env.input ∧ refDec env.pkcsOut = some env.input) ∧
    (∃ (pd rd : List Nat → Option (List Nat)) (e : Testtool.TestEnv) (fs : Nat),
      e.pkcsOut ≠ e.refOut ∧
      Testtool.test_openssl_encryptdecrypt_rsa pd rd e fs = true) := by
  have decOf : ∀ (dec : List Nat → Option (List Nat)) (input enc : List Nat),
      Testtool.openssl_pkcs_decrypt_rsa dec input enc = true → dec enc = some input := by
    intro dec input enc h
    unfold Testtool.openssl_pkcs_decrypt_rsa at h
    cases hd : dec enc with
    | none => simp [hd] at h
    | some out =>
      rw [hd] at h
      have hout : out = input := by simpa using h
      rw [hout]
  refine ⟨?_, ?_, ?_⟩
  · intro hpass
    simp only [Testtool.test_openssl_encryptdecrypt_rsa, Testtool.templatePasses,
      Testtool.templateSteps, Testtool.chainOk, List.all_cons, List.all_nil,
      Bool.and_eq_true] at hpass
    have hcp := hpass.2.2.2.2.2.2.2.1
    have hcr := hpass.2.2.2.2.2.2.1
    exact ⟨decOf pkcsDec env.input env.refOut hcp, decOf refDec env.input env.pkcsOut hcr⟩
  · intro hpass
    simp only [Testtool.test_openssl_encryptdecrypt_rsa_x509, Testtool.templatePasses,
      Testtool.templateSteps, Testtool.chainOk, List.all_cons, List.all_nil,
      Bool.and_eq_true] at hpass
    have hcc := hpass.2.2.2.2.2.1
    have hcp := hpass.2.2.2.2.2.2.2.1
    have hcr := hpass.2.2.2.2.2.2.1
    refine ⟨by simpa [Testtool.check_outfiles_diff] using hcc,
      decOf pkcsDec env.input env.refOut hcp, decOf refDec env.input env.pkcsOut hcr⟩
  · refine ⟨fun c => if c == [9] then some [1, 2, 3, 4] else none,
      fun c => if c == [7] then some [1, 2, 3, 4] else none,
      ⟨true, [1, 2, 3, 4], 0, true, true, [7], true, [9]⟩, 4, by decide, by decide⟩

/-- C5 witness: a concrete passing PKCS encrypt and decrypt case on which the
amended theorem yields both decrypt round trips. -/
theorem C5_roundtrip_amended_witness :
    ((fun c => if c == [9] then some [1, 2, 3, 4] else none) ([9] : List Nat) =
        some [1, 2, 3, 4] ∧
      (fun c => if c == [7] then some [1, 2, 3, 4] else none) ([7] : List Nat) =
        some [1, 2, 3, 4]) :=
  (C5_roundtrip_amended
    (fun c => if c == [9] then some [1, 2, 3, 4] else none)
    (fun c => if c == [7] then some [1, 2, 3, 4] else none)
    ⟨true, [1, 2, 3, 4], 0, true, true, [7], true, [9]⟩ 4).1 (by decide)

/-- C6 counterexample: the claim says a PSS combination is skipped exactly
when digest output length plus salt length exceeds the usable modulus
capacity.  The script skips the combination rsa1024 with salt length 64 and
digest sha1, although 20 + 64 + 2 is well below the 128 modulus bytes, so
that combination is feasible: the skip is hard-coded on key label and salt
length alone and over-approximates the capacity rule. -/
theorem C6_skip_not_capacity_based :
    Testtool.test_openssl_digestsignverify_rsapss (fun a b => true) (fun a b => true)
      ⟨true, [], 0, true, true, [], true, []⟩ 0 "rsa1024" 64 "sha1" = none ∧
    Testtool.pss_capacity_exceeded "rsa1024" "sha1" 64 = false := by
  refine ⟨by decide, by decide⟩

/-- C6 amended: a PSS matrix combination is skipped before invoking the
template exactly when the key label is rsa1024 and the salt length is 64,
irrespective of the digest; in particular the claimed rsa1024 combination
with a 64 byte salt and the 512 bit digest is excluded, and it is the only
combination of the matrix that exceeds the capacity bound. -/
theorem C6_skip_rule_amended (checkPkcs checkRef : List Nat → List Nat → Bool)
    (env : Testtool.TestEnv) (filesize : Nat) (keylabel digest : String) (saltlen : Nat) :
    (Testtool.test_openssl_digestsignverify_rsapss checkPkcs checkRef env filesize
        keylabel saltlen digest = none ↔ (keylabel = "rsa1024" ∧ saltlen = 64)) ∧
    Testtool.pss_capacity_exceeded "rsa1024" "sha512" 64 = true := by
  constructor
  · unfold Testtool.test_openssl_digestsignverify_rsapss
    by_cases hk : keylabel = "rsa1024"
    · by_cases hs : saltlen = 64
      · simp [hk, hs]
      · simp [hk, hs]
    · simp [hk]
  · decide

/-- C6 witness: the amended skip rule applied at the excluded rsa1024, salt
64, sha512 combination. -/
theorem C6_skip_rule_amended_witness :
    Testtool.test_openssl_digestsignverify_rsapss (fun a b => true) (fun a b => true)
      ⟨true, [], 0, true, true, [], true, []⟩ 0 "rsa1024" 64 "sha512" = none :=
  (C6_skip_rule_amended (fun a b => true) (fun a b => true)
    ⟨true, [], 0, true, true, [], true, []⟩ 0 "rsa1024" "sha512" 64).1.mpr ⟨rfl, rfl⟩

/-- C7: the RSA PSS output comparator always succeeds: for salt length 0 it
runs `diff` of the subject artifact against itself, which holds for every
pair of artifacts whether equal or not, and for nonzero salt lengths it only
echoes a message; hence the comparator step can never fail a PSS case. -/
theorem C7_pss_comparator_constant_true (pkcs_out ref_out : List Nat) (saltlen : Nat) :
    Testtool.check_outfiles_signverify_rsapss pkcs_out ref_out saltlen = true := by
  unfold Testtool.check_outfiles_signverify_rsapss
  split <;> simp

/-- C7 witness: the comparator succeeds on two unequal artifacts at salt
length 0 and at a nonzero salt length. -/
theorem C7_pss_comparator_constant_true_witness :
    Testtool.check_outfiles_signverify_rsapss [1] [2] 0 = true ∧
    Testtool.check_outfiles_signverify_rsapss [1] [2] 16 = true :=
  ⟨C7_pss_comparator_constant_true [1] [2] 0,
    C7_pss_comparator_constant_true [1] [2] 16⟩

/-- C8: inside one case, if the chain reaches a failing step (the steps
before it all succeeded), evaluation stops right after that step, the
remaining steps are not executed, the case fails, exactly one verdict is
recorded for it (the fail counter grows by one, the pass counter is
untouched), and the suite fold simply continues with the next case: the
failure never propagates past the case boundary. -/
theorem C8_short_circuit_one_verdict
    (checkPkcs checkRef customCheck : List Nat → List Nat → Bool)
    (env : Testtool.TestEnv) (filesize : Nat) (l1 l2 : List Bool)
    (hsplit : Testtool.templateSteps checkPkcs checkRef customCheck env filesize =
      l1 ++ false :: l2)
    (hpre : l1.all (fun b => b) = true) :
    Testtool.executedCount
        (Testtool.templateSteps checkPkcs checkRef customCheck env filesize) =
      l1.length + 1 ∧
    Testtool.templatePasses checkPkcs checkRef customCheck env filesize = false ∧
    (∀ led : Testtool.Ledger,
      Testtool.run_case checkPkcs checkRef customCheck env filesize led =
        { led with num_tests_failed := led.num_tests_failed + 1 }) ∧
    (∀ (led : Testtool.Ledger) (rest : List Nat),
      Testtool.run_suite led
          (Testtool.testtemplate_exitcode checkPkcs checkRef customCheck env filesize :: rest) =
        Testtool.run_suite (Testtool.run_case checkPkcs checkRef customCheck env filesize led)
          rest) := by
  have hfail : Testtool.templatePasses checkPkcs checkRef customCheck env filesize = false := by
    rw [Testtool.templatePasses, hsplit]
    exact Testtool.chainOk_append_false l1 l2
  refine ⟨?_, hfail, ?_, ?_⟩
  · rw [hsplit]
    exact Testtool.executedCount_append_false l1 l2 hpre
  · intro led
    simp [Testtool.run_case, Testtool.testtemplate_exitcode, hfail, Testtool.log_test_result]
  · intro led rest
    rfl

/-- C8 witness: a case whose very first step (input generation) fails: one
command executes, the case fails, and the ledger gains exactly one failed
verdict. -/
theorem C8_short_circuit_one_verdict_witness :
    Testtool.executedCount
        (Testtool.templateSteps (fun a b => true) (fun a b => true) (fun a b => true)
          ⟨false, [], 0, true, true, [], true, []⟩ 0) = 1 ∧
    Testtool.templatePasses (fun a b => true) (fun a b => true) (fun a b => true)
      ⟨false, [], 0, true, true, [], true, []⟩ 0 = false ∧
    (∀ led : Testtool.Ledger,
      Testtool.run_case (fun a b => true) (fun a b => true) (fun a b => true)
          ⟨false, [], 0, true, true, [], true, []⟩ 0 led =
        { led with num_tests_failed := led.num_tests_failed + 1 }) ∧
    (∀ (led : Testtool.Ledger) (rest : List Nat),
      Testtool.run_suite led
          (Testtool.testtemplate_exitcode (fun a b => true) (fun a b => true) (fun a b => true)
            ⟨false, [], 0, true, true, [], true, []⟩ 0 :: rest) =
        Testtool.run_suite
          (Testtool.run_case (fun a b => true) (fun a b => true) (fun a b => true)
            ⟨false, [], 0, true, true, [], true, []⟩ 0 led) rest) :=
  C8_short_circuit_one_verdict (fun a b => true) (fun a b => true) (fun a b => true)
    ⟨false, [], 0, true, true, [], true, []⟩ 0 []
    [true, true, true, true, true, true, true, true, true] (by rfl) (by rfl)

/-- C9 counterexample: the claim says any two test cases of one run that
request the same payload size receive byte-identical input files.  One run of
the openssl suite contains both a case using the plain generator at size 128
(RSA encrypt and decrypt with rsa2048) and a case using the raw X509
generator at size 128 (raw sign and verify with rsa1024); with the one shared
seed these two input files differ, because the X509 generator produces one
pseudo-random byte fewer and prepends the fixed byte 0x41. -/
theorem C9_same_size_inputs_can_differ :
    Testtool.case_input ⟨1⟩ ⟨Testtool.GenKind.plain, 128⟩ ≠
      Testtool.case_input ⟨1⟩ ⟨Testtool.GenKind.rsax509, 128⟩ ∧
    (⟨Testtool.GenKind.plain, 128⟩ : Testtool.CaseSpec).size =
      (⟨Testtool.GenKind.rsax509, 128⟩ : Testtool.CaseSpec).size := by
  refine ⟨by decide, rfl⟩

/-- C9 amended: the seed is fixed once per run and shared by every case, so
the corruption oracle picks the same bit index for any two cases of equal
payload size, and two cases that request the same size through the same input
generator receive byte-identical input files; cases that use different
generators at the same size need not. -/
theorem C9_run_determinism_amended (r : Testtool.TestRun) (c1 c2 : Testtool.CaseSpec)
    (hsize : c1.size = c2.size) :
    Testtool.case_corrupt_bit r c1 = Testtool.case_corrupt_bit r c2 ∧
    (c1.gen = c2.gen → Testtool.case_input r c1 = Testtool.case_input r c2) := by
  obtain ⟨g1, s1⟩ := c1
  obtain ⟨g2, s2⟩ := c2
  simp only at hsize
  subst hsize
  constructor
  · rfl
  · intro hgen
    simp only at hgen
    subst hgen
    rfl

/-- C9 witness: two plain-generator cases of size 3 in the run with seed 5
share the corruption bit and the input file. -/
theorem C9_run_determinism_amended_witness :
    Testtool.case_corrupt_bit ⟨5⟩ ⟨Testtool.GenKind.plain, 3⟩ =
      Testtool.case_corrupt_bit ⟨5⟩ ⟨Testtool.GenKind.plain, 3⟩ ∧
    (Testtool.GenKind.plain = Testtool.GenKind.plain →
      Testtool.case_input ⟨5⟩ ⟨Testtool.GenKind.plain, 3⟩ =
        Testtool.case_input ⟨5⟩ ⟨Testtool.GenKind.plain, 3⟩) :=
  C9_run_determinism_amended ⟨5⟩ ⟨Testtool.GenKind.plain, 3⟩ ⟨Testtool.GenKind.plain, 3⟩ rfl

/-- C10: each call of `log_test_result` increments exactly one of the two
counters by exactly one, the pass counter exactly when the reported exit code
is 0; folding a run of verdicts through it grows the counter sum by exactly
the number of verdicts (the fold is the only operation of the model that
touches the counters); and the summary reports exactly the two counters. -/
theorem C10_ledger_invariant (led : Testtool.Ledger) (e : Nat) (es : List Nat) :
    ((Testtool.log_test_result led e).num_tests_passed =
      led.num_tests_passed + (if e = 0 then 1 else 0)) ∧
    ((Testtool.log_test_result led e).num_tests_failed =
      led.num_tests_failed + (if e = 0 then 0 else 1)) ∧
    ((Testtool.log_test_result led e).num_tests_passed +
        (Testtool.log_test_result led e).num_tests_failed =
      led.num_tests_passed + led.num_tests_failed + 1) ∧
    ((Testtool.run_suite led es).num_tests_passed +
        (Testtool.run_suite led es).num_tests_failed =
      led.num_tests_passed + led.num_tests_failed + es.length) ∧
    Testtool.test_results_summary led = (led.num_tests_passed, led.num_tests_failed) := by
  have hstep : ∀ (l : Testtool.Ledger) (c : Nat),
      (Testtool.log_test_result l c).num_tests_passed +
        (Testtool.log_test_result l c).num_tests_failed =
      l.num_tests_passed + l.num_tests_failed + 1 := by
    intro l c
    by_cases hc : c = 0 <;> simp [Testtool.log_test_result, hc] <;> omega
  refine ⟨?_, ?_, hstep led e, ?_, rfl⟩
  · by_cases he : e = 0 <;> simp [Testtool.log_test_result, he]
  · by_cases he : e = 0 <;> simp [Testtool.log_test_result, he]
  · induction es generalizing led with
    | nil => simp [Testtool.run_suite]
    | cons c rest ih =>
      have hr : Testtool.run_suite led (c :: rest) =
          Testtool.run_suite (Testtool.log_test_result led c) rest := rfl
      rw [hr, ih (Testtool.log_test_result led c), hstep led c, List.length_cons]
      omega
